import Mathlib

/-
Verification of the offline-queue replay logic of app/scripts/helper/schedule.js
(the Schedule class of the ioweb2016 web client).

The replay core is `replayQueuedRequests` (schedule.js lines 384-415):

  if serviceWorker is in navigator then
    queuedSessionApiUpdates :=
      simpleDB.open(QUEUED_SESSION_API_UPDATES_DB_NAME).then(db =>
        let replayPromises := [];
        db.forEach(function(url, method)
          replayPromise := IOWA.Request.xhrPromise(method, url, true).then(
            () => db.delete(url).then(() => true));
          replayPromises.push(replayPromise)
        ).then(() =>
          if replayPromises.length then
            Promise.all(replayPromises).then(() =>
              Toast.showMessage(offline-success message)))
      ).catch(() => Toast.showMessage(offline-failure message));
    return Promise.all([queuedSessionApiUpdates])
  else return Promise.resolve()

and the teardown is `clearQueuedRequests` (lines 424-426), which calls
simpleDB.delete(Schedule.QUEUED_SESSION_UPDATES_DB_NAME).

The embedding below is a shallow one: the settled state of each promise is the
inductive `POutcome`, the observable side effects of an invocation are
collected in a `Trace` (stores opened, network requests issued, store keys
deleted, toast messages shown), and the nondeterminism of the environment
(capability probe, store-open success, per-request success) is an explicit
`Env` record, so every run of the code is one value of `replayQueuedRequests
env`.
-/

namespace Ioweb

/-- One persisted entry of the offline queue: the durable store maps a request
url (its key) to the HTTP method to be replayed against it, matching the
callback order of `db.forEach(function(url, method) ...)` in the source. -/
structure QueueEntry where
  url : String
  method : String
deriving DecidableEq, Repr

/-- One network request issued through `IOWA.Request.xhrPromise(method, url,
authenticated, payload)`; `payload = none` models a call site that omits the
payload argument (the JS argument is then `undefined`). -/
structure XhrRequest where
  method : String
  url : String
  authenticated : Bool
  payload : Option String
deriving DecidableEq, Repr

/-- Observable effects of one invocation, each list in order of issue: the
durable stores opened via `simpleDB.open`, the network requests issued via
`IOWA.Request.xhrPromise`, the store keys deleted via `db.delete`, and the
toast messages shown via `IOWA.Elements.Toast.showMessage`. -/
structure Trace where
  opens : List String
  requests : List XhrRequest
  deletes : List String
  toasts : List String
deriving DecidableEq, Repr

/-- The empty effect trace, at the start of an invocation. -/
def Trace.empty : Trace := ⟨[], [], [], []⟩

/-- Settled state of a JS promise: fulfilled with a value, or rejected. -/
inductive POutcome (α : Type) where
  | resolved : α → POutcome α
  | rejected : POutcome α
deriving DecidableEq, Repr

/-- Environment of one `replayQueuedRequests` invocation: whether the
capability probe (serviceWorker in navigator) holds, whether `simpleDB.open`
succeeds, the persisted queue contents at open time, and, for each pair of a
method and a url, whether the re-issued request succeeds. -/
structure Env where
  hasServiceWorker : Bool
  openOk : Bool
  queue : List QueueEntry
  xhrSucceeds : String → String → Bool

/-- Toast text shown when the aggregate replay promise resolves
(schedule.js line 404). -/
def offlineSuccessMessage : String := "My Schedule was updated with offline changes."

/-- Toast text shown by the catch handler (schedule.js line 408). -/
def offlineFailureMessage : String := "Offline changes could not be applied to My Schedule."

/-- Static getter `QUEUED_SESSION_API_UPDATES_DB_NAME` (schedule.js lines
27-29): name of the local DB table keeping the queued updates to the API
endpoint. -/
def QUEUED_SESSION_API_UPDATES_DB_NAME : String := "toolbox-offline-session-updates"

/-- JS static-property lookup on the Schedule class: each getter the class
defines returns its value; reading any other property name yields the JS value
`undefined`, modelled as `none`. -/
def scheduleStaticProp : String → Option String
  | "QUEUED_SESSION_API_UPDATES_DB_NAME" => some QUEUED_SESSION_API_UPDATES_DB_NAME
  | "SCHEDULE_ENDPOINT" => some "api/v1/schedule"
  | "SURVEY_ENDPOINT" => some "api/v1/user/survey"
  | _ => none

/-- Static `clearQueuedRequests` (schedule.js lines 424-426): it returns
`simpleDB.delete(Schedule.QUEUED_SESSION_UPDATES_DB_NAME)`. The value is the
name of the database the delete call targets, i.e. the JS property lookup of
the name `QUEUED_SESSION_UPDATES_DB_NAME` on the class (`none` meaning the
argument passed to `simpleDB.delete` is `undefined`). -/
def clearQueuedRequests : Option String :=
  scheduleStaticProp ("QUEUED_SESSION_UPDATES_DB_NAME")

/-- `IOWA.Elements.Toast.showMessage(msg)`: fire-and-forget, records the toast. -/
def showMessage (msg : String) (t : Trace) : Trace :=
  { t with toasts := t.toasts ++ [msg] }

/-- `IOWA.Request.xhrPromise(method, url, authenticated, payload)`: issues the
network request (recorded in the trace) and yields a promise that resolves or
rejects according to the environment. -/
def xhrPromise (env : Env) (method url : String) (authenticated : Bool)
    (payload : Option String) (t : Trace) : POutcome Unit × Trace :=
  ((if env.xhrSucceeds method url then .resolved () else .rejected),
   { t with requests := t.requests ++ [⟨method, url, authenticated, payload⟩] })

/-- `db.delete(url).then(function() { return true; })`: removes the key from
the durable store (recorded in the trace) and resolves with `true`. -/
def dbDelete (url : String) (t : Trace) : POutcome Bool × Trace :=
  (.resolved true, { t with deletes := t.deletes ++ [url] })

/-- The per-entry replay promise built inside the `db.forEach` callback
(schedule.js lines 395-399):
`IOWA.Request.xhrPromise(method, url, true).then(() => db.delete(url).then(() => true))`.
No catch is attached, so a failing request leaves the promise rejected and the
key untouched. -/
def replayPromise (env : Env) (url method : String) (t : Trace) :
    POutcome Bool × Trace :=
  match xhrPromise env method url true none t with
  | (.resolved _, t1) => dbDelete url t1
  | (.rejected, t1) => (.rejected, t1)

/-- `db.forEach(function(url, method) ... replayPromises.push(replayPromise))`
(schedule.js lines 394-400): visits every stored entry, starts its replay
promise, and collects the promises in order. -/
def dbForEach (env : Env) : List QueueEntry → Trace → List (POutcome Bool) × Trace
  | [], t => ([], t)
  | e :: rest, t =>
      match replayPromise env e.url e.method t with
      | (p, t1) =>
          match dbForEach env rest t1 with
          | (ps, t2) => (p :: ps, t2)

/-- `Promise.all`: resolves with the list of values when every promise
resolved, and rejects as soon as any promise rejected. -/
def promiseAll : List (POutcome Bool) → POutcome (List Bool)
  | [] => .resolved []
  | .resolved b :: rest =>
      match promiseAll rest with
      | .resolved bs => .resolved (b :: bs)
      | .rejected => .rejected
  | .rejected :: _ => .rejected

/-- The continuation attached after `db.forEach` completes (schedule.js lines
401-406): `if (replayPromises.length) return Promise.all(replayPromises)
.then(() => Toast.showMessage(offline-success message))`. With an empty
collection nothing happens; otherwise the success toast is shown only if every
replay promise resolved, and the rejection of `Promise.all` propagates. -/
def afterForEach (replayPromises : List (POutcome Bool)) (t : Trace) :
    POutcome Unit × Trace :=
  if replayPromises.length ≠ 0 then
    match promiseAll replayPromises with
    | .resolved _ => (.resolved (), showMessage offlineSuccessMessage t)
    | .rejected => (.rejected, t)
  else (.resolved (), t)

/-- `simpleDB.open(Schedule.QUEUED_SESSION_API_UPDATES_DB_NAME)` (schedule.js
line 390): records the open and either resolves with a handle on the queue
contents or rejects. -/
def simpleDBOpen (env : Env) (t : Trace) : POutcome (List QueueEntry) × Trace :=
  ((if env.openOk then .resolved env.queue else .rejected),
   { t with opens := t.opens ++ [QUEUED_SESSION_API_UPDATES_DB_NAME] })

/-- `replayQueuedRequests` (schedule.js lines 384-415). Returns the settled
state of the promise the method returns, paired with the effect trace of the
invocation. The capability gate returns `Promise.resolve()` with no effect;
otherwise the open-then-forEach-then-all chain runs with the catch handler of
line 407 attached, and the method returns `Promise.all([queuedSessionApiUpdates])`. -/
def replayQueuedRequests (env : Env) : POutcome Unit × Trace :=
  if env.hasServiceWorker then
    let opened := simpleDBOpen env Trace.empty
    let step :=
      match opened.1 with
      | .resolved db =>
          let fe := dbForEach env db opened.2
          afterForEach fe.1 fe.2
      | .rejected => (.rejected, opened.2)
    match step.1 with
    | .resolved _ => (.resolved (), step.2)
    | .rejected => (.resolved (), showMessage offlineFailureMessage step.2)
  else (.resolved (), Trace.empty)

/-- Contents of the durable store once every delete issued by the invocation
has completed: the store semantics removes exactly the entries whose key was
deleted. -/
def finalQueue (env : Env) : List QueueEntry :=
  env.queue.filter (fun e => !((replayQueuedRequests env).2.deletes.contains e.url))

/-! Helper lemmas computing the effect trace of an invocation in each of the
scenarios the environment can present. -/

theorem replayPromise_eq (env : Env) (url method : String) (t : Trace) :
    replayPromise env url method t =
      ((if env.xhrSucceeds method url then .resolved true else .rejected),
       { t with
         requests := t.requests ++ [⟨method, url, true, none⟩],
         deletes :=
           if env.xhrSucceeds method url then t.deletes ++ [url] else t.deletes }) := by
  by_cases h : env.xhrSucceeds method url <;>
    simp [replayPromise, xhrPromise, dbDelete, h]

theorem dbForEach_eq (env : Env) (q : List QueueEntry) (t : Trace) :
    dbForEach env q t =
      (q.map (fun e =>
          if env.xhrSucceeds e.method e.url then POutcome.resolved true else .rejected),
       { t with
         requests := t.requests ++ q.map (fun e => ⟨e.method, e.url, true, none⟩),
         deletes := t.deletes ++
           (q.filter (fun e => env.xhrSucceeds e.method e.url)).map QueueEntry.url }) := by
  induction q generalizing t with
  | nil => simp [dbForEach]
  | cons e rest ih =>
      by_cases h : env.xhrSucceeds e.method e.url <;>
        simp [dbForEach, replayPromise_eq, h, ih, List.filter_cons]

theorem promiseAll_all_resolved (env : Env) (q : List QueueEntry)
    (h : ∀ e ∈ q, env.xhrSucceeds e.method e.url = true) :
    promiseAll (q.map (fun e =>
        if env.xhrSucceeds e.method e.url then POutcome.resolved true else .rejected)) =
      .resolved (q.map fun _ => true) := by
  induction q with
  | nil => simp [promiseAll]
  | cons e rest ih =>
      have he : env.xhrSucceeds e.method e.url = true := h e (by simp)
      have hr := ih (fun x hx => h x (by simp [hx]))
      simp [promiseAll, he, hr]

theorem promiseAll_of_failure (env : Env) (q : List QueueEntry) (e : QueueEntry)
    (he : e ∈ q) (hf : env.xhrSucceeds e.method e.url = false) :
    promiseAll (q.map (fun x =>
        if env.xhrSucceeds x.method x.url then POutcome.resolved true else .rejected)) =
      .rejected := by
  induction q with
  | nil => cases he
  | cons a rest ih =>
      rcases List.mem_cons.mp he with rfl | hmem
      · simp [promiseAll, hf]
      · by_cases ha : env.xhrSucceeds a.method a.url
        · simp [promiseAll, ha, ih hmem]
        · simp [promiseAll, ha]

theorem replay_no_sw (env : Env) (hsw : env.hasServiceWorker = false) :
    replayQueuedRequests env = (.resolved (), Trace.empty) := by
  simp [replayQueuedRequests, hsw]

theorem replay_open_failure (env : Env) (hsw : env.hasServiceWorker = true)
    (hopen : env.openOk = false) :
    replayQueuedRequests env =
      (.resolved (),
       ⟨[QUEUED_SESSION_API_UPDATES_DB_NAME], [], [], [offlineFailureMessage]⟩) := by
  simp [replayQueuedRequests, simpleDBOpen, hsw, hopen, showMessage, Trace.empty]

theorem replay_empty_queue (env : Env) (hsw : env.hasServiceWorker = true)
    (hopen : env.openOk = true) (hq : env.queue = []) :
    replayQueuedRequests env =
      (.resolved (), ⟨[QUEUED_SESSION_API_UPDATES_DB_NAME], [], [], []⟩) := by
  simp [replayQueuedRequests, simpleDBOpen, hsw, hopen, hq, dbForEach, afterForEach,
    Trace.empty]

theorem replay_all_success (env : Env) (hsw : env.hasServiceWorker = true)
    (hopen : env.openOk = true) (hne : env.queue ≠ [])
    (hall : ∀ e ∈ env.queue, env.xhrSucceeds e.method e.url = true) :
    replayQueuedRequests env =
      (.resolved (),
       ⟨[QUEUED_SESSION_API_UPDATES_DB_NAME],
        env.queue.map (fun e => ⟨e.method, e.url, true, none⟩),
        env.queue.map QueueEntry.url,
        [offlineSuccessMessage]⟩) := by
  have hlen : env.queue.length ≠ 0 := fun h => hne (List.length_eq_zero.mp h)
  have hfil : env.queue.filter (fun e => env.xhrSucceeds e.method e.url) = env.queue :=
    List.filter_eq_self.mpr (fun a ha => by simp [hall a ha])
  have hp := promiseAll_all_resolved env env.queue hall
  simp [replayQueuedRequests, simpleDBOpen, hsw, hopen, dbForEach_eq, afterForEach,
    hlen, hp, hfil, showMessage, Trace.empty]

theorem replay_with_failure (env : Env) (hsw : env.hasServiceWorker = true)
    (hopen : env.openOk = true) (e : QueueEntry) (he : e ∈ env.queue)
    (hf : env.xhrSucceeds e.method e.url = false) :
    replayQueuedRequests env =
      (.resolved (),
       ⟨[QUEUED_SESSION_API_UPDATES_DB_NAME],
        env.queue.map (fun e => ⟨e.method, e.url, true, none⟩),
        (env.queue.filter (fun e => env.xhrSucceeds e.method e.url)).map QueueEntry.url,
        [offlineFailureMessage]⟩) := by
  have hlen : env.queue.length ≠ 0 := by
    intro h
    rw [List.length_eq_zero] at h
    simp [h] at he
  have hp := promiseAll_of_failure env env.queue e he hf
  simp [replayQueuedRequests, simpleDBOpen, hsw, hopen, dbForEach_eq, afterForEach,
    hlen, hp, showMessage, Trace.empty]

theorem replay_deletes_eq (env : Env) (hsw : env.hasServiceWorker = true)
    (hopen : env.openOk = true) :
    (replayQueuedRequests env).2.deletes =
      (env.queue.filter (fun e => env.xhrSucceeds e.method e.url)).map QueueEntry.url := by
  by_cases hq : env.queue = []
  · rw [replay_empty_queue env hsw hopen hq]
    simp [hq]
  · by_cases hall : ∀ e ∈ env.queue, env.xhrSucceeds e.method e.url = true
    · rw [replay_all_success env hsw hopen hq hall]
      have hfil : env.queue.filter (fun e => env.xhrSucceeds e.method e.url) = env.queue :=
        List.filter_eq_self.mpr (fun a ha => by simp [hall a ha])
      rw [hfil]
    · push_neg at hall
      obtain ⟨e, he, hf⟩ := hall
      rw [replay_with_failure env hsw hopen e he (by simpa using hf)]

/-! The claims. -/

/-- Demo environment for the drain-on-success scenario: the single queued
entry replays successfully. -/
def envDrainDemo : Env :=
  ⟨true, true, [⟨"api/v1/user/survey/42", "PUT"⟩], fun _ _ => true⟩

/-- Demo environment with one entry whose replay succeeds (url A) and one
whose replay fails (url B). -/
def envMixedDemo : Env :=
  ⟨true, true, [⟨"A", "GET"⟩, ⟨"B", "PUT"⟩], fun _ url => url == "A"⟩

/-- C1: for a non-empty persisted queue in which every replayed request
succeeds, one invocation of replayQueuedRequests (capability present, store
open succeeding) leaves the queue empty and shows exactly one success toast,
whose text is the offline-success message. -/
theorem replay_drains_queue_on_success (env : Env)
    (hsw : env.hasServiceWorker = true) (hopen : env.openOk = true)
    (hne : env.queue ≠ [])
    (hall : ∀ e ∈ env.queue, env.xhrSucceeds e.method e.url = true) :
    finalQueue env = [] ∧
    (replayQueuedRequests env).2.toasts = [offlineSuccessMessage] ∧
    offlineSuccessMessage = "My Schedule was updated with offline changes." := by
  refine ⟨?_, ?_, rfl⟩
  · unfold finalQueue
    rw [replay_all_success env hsw hopen hne hall]
    refine List.filter_eq_nil_iff.mpr (fun a ha => ?_)
    simp [List.contains, List.mem_map_of_mem QueueEntry.url ha]
  · rw [replay_all_success env hsw hopen hne hall]

/-- Witness for C1 at a concrete input: the spec example queue, a single PUT
to the survey endpoint that succeeds on replay. -/
theorem replay_drains_queue_on_success_witness :
    envDrainDemo.queue ≠ [] ∧
    (finalQueue envDrainDemo = [] ∧
     (replayQueuedRequests envDrainDemo).2.toasts = [offlineSuccessMessage] ∧
     offlineSuccessMessage = "My Schedule was updated with offline changes.") :=
  ⟨by decide,
   replay_drains_queue_on_success envDrainDemo rfl rfl (by decide) (by decide)⟩

/-- C2: with the store open succeeding and urls unique (they are the store
keys), an entry is removed from the queue by the invocation exactly when its
re-issued request succeeded; a failed entry remains in the queue. -/
theorem replay_removes_entry_iff_success (env : Env)
    (hsw : env.hasServiceWorker = true) (hopen : env.openOk = true)
    (hnd : (env.queue.map QueueEntry.url).Nodup) :
    ∀ e ∈ env.queue,
      (e ∉ finalQueue env ↔ env.xhrSucceeds e.method e.url = true) := by
  intro e he
  have key : e.url ∈ (env.queue.filter
        (fun x => env.xhrSucceeds x.method x.url)).map QueueEntry.url ↔
      env.xhrSucceeds e.method e.url = true := by
    constructor
    · intro hm
      obtain ⟨x, hx, hxe⟩ := List.mem_map.mp hm
      obtain ⟨hxq, hxs⟩ := List.mem_filter.mp hx
      have hxeq : x = e := List.inj_on_of_nodup_map hnd hxq he hxe
      rw [← hxeq]
      simpa using hxs
    · intro hs
      exact List.mem_map_of_mem _ (List.mem_filter.mpr ⟨he, by simp [hs]⟩)
  unfold finalQueue
  rw [replay_deletes_eq env hsw hopen]
  simp [List.mem_filter, he, List.contains, ← key]
  tauto

/-- Witness for C2 at a concrete input: queue with urls A and B, the request
for A succeeding and the request for B failing. -/
theorem replay_removes_entry_iff_success_witness :
    (envMixedDemo.queue.map QueueEntry.url).Nodup ∧
    ∀ e ∈ envMixedDemo.queue,
      (e ∉ finalQueue envMixedDemo ↔ envMixedDemo.xhrSucceeds e.method e.url = true) :=
  ⟨by decide, replay_removes_entry_iff_success envMixedDemo rfl rfl (by decide)⟩

/-- Demo environment with a non-empty queue whose single replayed request
fails. -/
def envAllFailDemo : Env :=
  ⟨true, true, [⟨"api/v1/user/survey/42", "PUT"⟩], fun _ _ => false⟩

/-- Demo environment for the amended toast claim, with one succeeding and one
failing entry. -/
def envToastDemo : Env :=
  ⟨true, true, [⟨"X", "GET"⟩, ⟨"Y", "DELETE"⟩], fun _ url => url == "X"⟩

/-- C3 (counterexample): with a non-empty queue whose replay fails, the
invocation does not show the success-summary toast; the rejection of the
aggregate promise reaches the catch handler, which shows the failure toast
instead. -/
theorem partial_failure_no_success_toast_cex :
    envAllFailDemo.hasServiceWorker = true ∧
    envAllFailDemo.openOk = true ∧
    envAllFailDemo.queue ≠ [] ∧
    offlineSuccessMessage ∉ (replayQueuedRequests envAllFailDemo).2.toasts ∧
    (replayQueuedRequests envAllFailDemo).2.toasts = [offlineFailureMessage] := by
  decide

/-- C3 (amended): for a non-empty queue (capability present, store open
succeeding) the invocation shows exactly one toast: the success summary when
every replayed request succeeded, and otherwise the aggregate failure message
-- a partial failure reports the failure toast, not the success summary. -/
theorem replay_toast_matches_outcome (env : Env)
    (hsw : env.hasServiceWorker = true) (hopen : env.openOk = true)
    (hne : env.queue ≠ []) :
    (replayQueuedRequests env).2.toasts =
      if env.queue.all (fun e => env.xhrSucceeds e.method e.url) then
        [offlineSuccessMessage]
      else [offlineFailureMessage] := by
  by_cases hall : env.queue.all (fun e => env.xhrSucceeds e.method e.url) = true
  · rw [if_pos hall,
      replay_all_success env hsw hopen hne (fun e he => List.all_eq_true.mp hall e he)]
  · rw [if_neg hall]
    have hex : ∃ e ∈ env.queue, env.xhrSucceeds e.method e.url = false := by
      by_contra hc
      push_neg at hc
      exact hall (List.all_eq_true.mpr (fun x hx => by
        have := hc x hx
        simpa using this))
    obtain ⟨e, he, hf⟩ := hex
    rw [replay_with_failure env hsw hopen e he hf]

/-- Witness for the amended C3 at a concrete input: one entry succeeds, one
fails, and the invocation shows the failure toast. -/
theorem replay_toast_matches_outcome_witness :
    envToastDemo.queue ≠ [] ∧
    (replayQueuedRequests envToastDemo).2.toasts =
      (if envToastDemo.queue.all (fun e => envToastDemo.xhrSucceeds e.method e.url) then
        [offlineSuccessMessage]
      else [offlineFailureMessage]) :=
  ⟨by decide, replay_toast_matches_outcome envToastDemo rfl rfl (by decide)⟩

/-- C4 (code bug): `clearQueuedRequests` reads the static property
`QUEUED_SESSION_UPDATES_DB_NAME`, which the class does not define (the getter
is `QUEUED_SESSION_API_UPDATES_DB_NAME`), so `simpleDB.delete` is called with
`undefined` and the store "toolbox-offline-session-updates" holding the queue
is never deleted. -/
theorem clearQueuedRequests_misses_queue_store :
    clearQueuedRequests = none ∧
    scheduleStaticProp ("QUEUED_SESSION_API_UPDATES_DB_NAME") =
      some "toolbox-offline-session-updates" ∧
    clearQueuedRequests ≠ some QUEUED_SESSION_API_UPDATES_DB_NAME := by
  decide

/-- Demo environment in which opening the durable store fails. -/
def envOpenFailDemo : Env := ⟨true, false, [⟨"A", "GET"⟩], fun _ _ => true⟩

/-- C5: if opening the durable store fails, the invocation issues no network
requests, deletes no entries, and shows exactly one failure toast, whose text
is the offline-failure message. -/
theorem open_failure_one_failure_toast (env : Env)
    (hsw : env.hasServiceWorker = true) (hopen : env.openOk = false) :
    (replayQueuedRequests env).2.requests = [] ∧
    (replayQueuedRequests env).2.deletes = [] ∧
    (replayQueuedRequests env).2.toasts = [offlineFailureMessage] ∧
    offlineFailureMessage = "Offline changes could not be applied to My Schedule." := by
  rw [replay_open_failure env hsw hopen]
  exact ⟨rfl, rfl, rfl, rfl⟩

/-- Witness for C5 at a concrete input: store open failing over a one-entry
queue. -/
theorem open_failure_one_failure_toast_witness :
    (replayQueuedRequests envOpenFailDemo).2.requests = [] ∧
    (replayQueuedRequests envOpenFailDemo).2.deletes = [] ∧
    (replayQueuedRequests envOpenFailDemo).2.toasts = [offlineFailureMessage] ∧
    offlineFailureMessage = "Offline changes could not be applied to My Schedule." :=
  open_failure_one_failure_toast envOpenFailDemo rfl rfl

/-- Demo environment lacking the durable-store capability. -/
def envNoSWDemo : Env := ⟨false, true, [⟨"A", "GET"⟩], fun _ _ => true⟩

/-- C6: without the serviceWorker capability, the invocation resolves
immediately as a no-op: the returned promise is resolved and the trace is
empty -- no store opened, no request issued, no toast shown. -/
theorem no_capability_noop (env : Env) (hsw : env.hasServiceWorker = false) :
    replayQueuedRequests env = (POutcome.resolved (), Trace.empty) ∧
    (replayQueuedRequests env).2.opens = [] ∧
    (replayQueuedRequests env).2.requests = [] ∧
    (replayQueuedRequests env).2.toasts = [] := by
  rw [replay_no_sw env hsw]
  exact ⟨rfl, rfl, rfl, rfl⟩

/-- Witness for C6 at a concrete input: capability absent over a non-empty
queue. -/
theorem no_capability_noop_witness :
    replayQueuedRequests envNoSWDemo = (POutcome.resolved (), Trace.empty) ∧
    (replayQueuedRequests envNoSWDemo).2.opens = [] ∧
    (replayQueuedRequests envNoSWDemo).2.requests = [] ∧
    (replayQueuedRequests envNoSWDemo).2.toasts = [] :=
  no_capability_noop envNoSWDemo rfl

/-- Demo environment with an empty persisted queue. -/
def envEmptyDemo : Env := ⟨true, true, [], fun _ _ => true⟩

/-- C7: with the store opening successfully over an empty queue, the
invocation issues no network requests, shows no toast, and leaves the queue
unchanged. -/
theorem empty_queue_noop (env : Env) (hsw : env.hasServiceWorker = true)
    (hopen : env.openOk = true) (hq : env.queue = []) :
    (replayQueuedRequests env).2.requests = [] ∧
    (replayQueuedRequests env).2.toasts = [] ∧
    finalQueue env = env.queue := by
  unfold finalQueue
  rw [replay_empty_queue env hsw hopen hq]
  exact ⟨rfl, rfl, by simp [hq]⟩

/-- Witness for C7 at a concrete input: an empty queue. -/
theorem empty_queue_noop_witness :
    (replayQueuedRequests envEmptyDemo).2.requests = [] ∧
    (replayQueuedRequests envEmptyDemo).2.toasts = [] ∧
    finalQueue envEmptyDemo = envEmptyDemo.queue :=
  empty_queue_noop envEmptyDemo rfl rfl rfl

/-- C8: for every environment -- any capability, open outcome, queue content
and pattern of per-entry request outcomes -- the invocation shows at most one
toast, and any toast shown is the success summary or the aggregate failure
message, never a per-entry message. -/
theorem at_most_one_toast (env : Env) :
    (replayQueuedRequests env).2.toasts.length ≤ 1 ∧
    ∀ m ∈ (replayQueuedRequests env).2.toasts,
      m = offlineSuccessMessage ∨ m = offlineFailureMessage := by
  by_cases hsw : env.hasServiceWorker = true
  · by_cases hopen : env.openOk = true
    · by_cases hq : env.queue = []
      · rw [replay_empty_queue env hsw hopen hq]
        simp
      · by_cases hall : ∀ e ∈ env.queue, env.xhrSucceeds e.method e.url = true
        · rw [replay_all_success env hsw hopen hq hall]
          simp
        · push_neg at hall
          obtain ⟨e, he, hf⟩ := hall
          rw [replay_with_failure env hsw hopen e he (by simpa using hf)]
          simp
    · rw [replay_open_failure env hsw (by simpa using hopen)]
      simp
  · rw [replay_no_sw env (by simpa using hsw)]
    simp [Trace.empty]

/-- Demo environment for the one-request-per-entry claim: two queued entries,
both of whose replays fail (requests are issued regardless of outcome). -/
def envRequestsDemo : Env :=
  ⟨true, true, [⟨"api/v1/user/survey/7", "PUT"⟩, ⟨"api/v1/user/schedule", "DELETE"⟩],
   fun _ _ => false⟩

/-- C9: with the store open succeeding, the invocation issues exactly one
network request per queue entry, in store order, using the stored method
against the stored url, with the authenticated flag set and no payload. -/
theorem one_authenticated_request_per_entry (env : Env)
    (hsw : env.hasServiceWorker = true) (hopen : env.openOk = true) :
    (replayQueuedRequests env).2.requests =
      env.queue.map (fun e => ⟨e.method, e.url, true, none⟩) := by
  by_cases hq : env.queue = []
  · rw [replay_empty_queue env hsw hopen hq]
    simp [hq]
  · by_cases hall : ∀ e ∈ env.queue, env.xhrSucceeds e.method e.url = true
    · rw [replay_all_success env hsw hopen hq hall]
    · push_neg at hall
      obtain ⟨e, he, hf⟩ := hall
      rw [replay_with_failure env hsw hopen e he (by simpa using hf)]

/-- Witness for C9 at a concrete input: two entries, both failing, still get
exactly one authenticated request each with no payload. -/
theorem one_authenticated_request_per_entry_witness :
    (replayQueuedRequests envRequestsDemo).2.requests =
      envRequestsDemo.queue.map (fun e => ⟨e.method, e.url, true, none⟩) :=
  one_authenticated_request_per_entry envRequestsDemo rfl rfl

/-- C10: the promise returned by replayQueuedRequests always resolves and
never rejects, in every environment: missing capability, store-open failure,
or any combination of per-entry replay failures. -/
theorem replay_always_resolves (env : Env) :
    (replayQueuedRequests env).1 = POutcome.resolved () := by
  by_cases hsw : env.hasServiceWorker = true
  · by_cases hopen : env.openOk = true
    · by_cases hq : env.queue = []
      · rw [replay_empty_queue env hsw hopen hq]
      · by_cases hall : ∀ e ∈ env.queue, env.xhrSucceeds e.method e.url = true
        · rw [replay_all_success env hsw hopen hq hall]
        · push_neg at hall
          obtain ⟨e, he, hf⟩ := hall
          rw [replay_with_failure env hsw hopen e he (by simpa using hf)]
    · rw [replay_open_failure env hsw (by simpa using hopen)]
  · rw [replay_no_sw env (by simpa using hsw)]

end Ioweb
